import Mathlib

/-!
Verification of the udp-redirect relay core (src/udp-redirect.c) against its
natural-language specification.

The embedding mirrors the C source:
* `Endpoint` is `struct sockaddr_in` restricted to the fields the program
  reads (`sin_addr.s_addr`, `sin_port`), both kept as the raw machine values
  the code stores (address in binary form, port in network byte order).
  Address `0` is the code's encoding for "no endpoint known yet"
  (udp-redirect.c:783, 787).
* `Settings` holds the already-parsed configuration fields the relay loop
  consults (struct settings, udp-redirect.c:202).
* `Stats` is `struct statistics` (udp-redirect.c:229).
* `listenEvent` / `sendEvent` are the two per-socket blocks of the main loop
  (udp-redirect.c:850-913 and 916-968); the OS interactions (recvfrom,
  sendto) are passed in as explicit results.
-/

/-- An IPv4 endpoint as the program stores it: `sin_addr.s_addr` (binary
address, `0` encodes "no endpoint") and `sin_port` (network byte order). -/
structure Endpoint where
  addr : Nat
  port : Nat
deriving DecidableEq, Repr

/-- The configuration fields of `struct settings` that the relay core reads,
after string parsing: `lsaddr` is the `inet_addr` image of the configured
expected-sender address (or `none` for a `NULL` pointer). -/
structure Settings where
  lstrict : Bool
  cstrict : Bool
  lsaddr : Option Nat
  lsport : Nat
  eignore : Bool
  stats : Bool
deriving DecidableEq, Repr

/-- `struct statistics` (udp-redirect.c:229): two timestamps, eight interval
counters and eight cumulative counters. The counters are C `unsigned long`
values; every update in the embedding therefore reduces modulo `ULONG_MOD`
(the fields hold values below `ULONG_MOD`, and wrap on overflow exactly as
the C `+=`/`++` do). -/
structure Stats where
  time_display_last : Nat
  time_display_first : Nat
  count_listen_packet_receive : Nat
  count_listen_byte_receive : Nat
  count_listen_packet_send : Nat
  count_listen_byte_send : Nat
  count_connect_packet_receive : Nat
  count_connect_byte_receive : Nat
  count_connect_packet_send : Nat
  count_connect_byte_send : Nat
  count_listen_packet_receive_total : Nat
  count_listen_byte_receive_total : Nat
  count_listen_packet_send_total : Nat
  count_listen_byte_send_total : Nat
  count_connect_packet_receive_total : Nat
  count_connect_byte_receive_total : Nat
  count_connect_packet_send_total : Nat
  count_connect_byte_send_total : Nat
deriving DecidableEq, Repr

/-- `struct statistics statistics_initializer` (udp-redirect.c:551): all
fields zero, in particular `time_display_last = 0`. -/
def statistics_initializer : Stats :=
  { time_display_last := 0
    time_display_first := 0
    count_listen_packet_receive := 0
    count_listen_byte_receive := 0
    count_listen_packet_send := 0
    count_listen_byte_send := 0
    count_connect_packet_receive := 0
    count_connect_byte_receive := 0
    count_connect_packet_send := 0
    count_connect_byte_send := 0
    count_listen_packet_receive_total := 0
    count_listen_byte_receive_total := 0
    count_listen_packet_send_total := 0
    count_listen_byte_send_total := 0
    count_connect_packet_receive_total := 0
    count_connect_byte_receive_total := 0
    count_connect_packet_send_total := 0
    count_connect_byte_send_total := 0 }

/-- Linux errno values used by the program. -/
def EINTR : Nat := 4

def EAGAIN : Nat := 11

def EPIPE : Nat := 32

def EADDRNOTAVAIL : Nat := 99

def ENETDOWN : Nat := 100

def ENETUNREACH : Nat := 101

def ENOBUFS : Nat := 105

def EHOSTUNREACH : Nat := 113

/-- `MAX_ERRNO` (udp-redirect.c:66). -/
def MAX_ERRNO : Nat := 256

/-- `ULONG_MAX + 1`: the counters are `unsigned long`, whose arithmetic
wraps modulo `2 ^ 64` on the LP64 Linux targets this embedding models (the
same targets the errno values above come from). -/
def ULONG_MOD : Nat := 2 ^ 64

/-- `STATS_DELAY_SECONDS` (udp-redirect.c:56). -/
def STATS_DELAY_SECONDS : Nat := 60

/-- `INADDR_NONE`, the error return of `inet_addr`. -/
def INADDR_NONE : Nat := 4294967295

/-- `htons` on a 16-bit port value: swap the two bytes. -/
def htons (x : Nat) : Nat := (x % 256) * 256 + (x / 256) % 256

/-- `ERRNO_IGNORE_INIT` (udp-redirect.c:71): the all-zero array, modelled as
a membership function over errno values. -/
def errno_ignore_init : Nat → Bool := fun _ => false

/-- `ERRNO_IGNORE_SET` (udp-redirect.c:76): mark one errno, guarded by the
array bound. -/
def errno_ignore_set (X : Nat → Bool) (Y : Nat) : Nat → Bool :=
  if Y < MAX_ERRNO then fun z => if z = Y then true else X z else X

/-- `ERRNO_IGNORE_CHECK` (udp-redirect.c:81): bounds check plus lookup. -/
def errno_ignore_check (X : Nat → Bool) (Y : Nat) : Bool :=
  decide (Y < MAX_ERRNO) && X Y

/-- The errno ignore set as `main` builds it (udp-redirect.c:800-811):
`EINTR` is always in; when `eignore` is set the fixed allow-list is added. -/
def build_errno_ignore (eignore : Bool) : Nat → Bool :=
  let X := errno_ignore_set errno_ignore_init EINTR
  if eignore then
    errno_ignore_set (errno_ignore_set (errno_ignore_set (errno_ignore_set
      (errno_ignore_set (errno_ignore_set (errno_ignore_set X
        EAGAIN) EHOSTUNREACH) ENETDOWN) ENETUNREACH) ENOBUFS) EPIPE)
      EADDRNOTAVAIL
  else X

/-- The result of one `recvfrom` call: an errno, or a datagram with its
source endpoint and payload bytes. -/
inductive RecvResult where
  | err (e : Nat)
  | data (src : Endpoint) (payload : List Nat)
deriving DecidableEq, Repr

/-- The result of one `sendto` call: the byte count written, or an errno. -/
inductive SendResult where
  | ok (n : Nat)
  | err (e : Nat)
deriving DecidableEq, Repr

/-- The effect of handling one socket event: a fatal `exit(EXIT_FAILURE)`
with the offending errno, or continuation with the new tracked endpoint, the
new counters, and the datagram handed to `sendto` (destination and bytes),
if any. -/
inductive Outcome where
  | fatal (e : Nat)
  | cont (prev : Endpoint) (st : Stats) (out : Option (Endpoint × List Nat))
deriving DecidableEq, Repr

/-- Whether the event led to a forward (a `sendto` call on the opposite
socket). -/
def Outcome.forwards : Outcome → Bool
  | Outcome.cont _ _ (some _) => true
  | _ => false

/-- The datagram handed to `sendto`, if any. -/
def Outcome.output : Outcome → Option (Endpoint × List Nat)
  | Outcome.cont _ _ o => o
  | Outcome.fatal _ => none

/-- The tracked listen-side endpoint after the event (`none` when the
process exited). -/
def Outcome.trackedEndpoint : Outcome → Option Endpoint
  | Outcome.cont p _ _ => some p
  | Outcome.fatal _ => none

/-- The counters after the event (`none` when the process exited). -/
def Outcome.statsAfter : Outcome → Option Stats
  | Outcome.cont _ st _ => some st
  | Outcome.fatal _ => none

/-- The listen-socket acceptance test (udp-redirect.c:874-876): accept when
there is no previous endpoint, or strict mode is off, or the previous
endpoint matches the current source. -/
def listenAccept (s : Settings) (prev E : Endpoint) : Bool :=
  (decide (prev.addr = 0) || !s.lstrict) ||
    (decide (prev.addr = E.addr) && decide (prev.port = E.port))

/-- The listen-socket endpoint refresh (udp-redirect.c:878-886): when there
is no previous endpoint or strict mode is off, the tracked endpoint is set
to the current source. -/
def listenUpdate (s : Settings) (prev E : Endpoint) : Endpoint :=
  if decide (prev.addr = 0) || !s.lstrict then E else prev

/-- The send-socket acceptance test (udp-redirect.c:940-941): accept when a
listen-side endpoint is known and (strict-connect is off or the source is
the connect endpoint). -/
def sendAccept (s : Settings) (caddr prev E : Endpoint) : Bool :=
  decide (prev.addr ≠ 0) &&
    (!s.cstrict || (decide (caddr.addr = E.addr) && decide (caddr.port = E.port)))

/-- The LISTEN-socket block of the main loop (udp-redirect.c:850-913).
`X` is the errno ignore set, `caddr` the fixed connect endpoint, `prev` the
tracked listen-side endpoint (`previous_endpoint`), `rr` the `recvfrom`
result and `sres` the result `sendto` would return for the forward. -/
def listenEvent (s : Settings) (X : Nat → Bool) (caddr prev : Endpoint)
    (st : Stats) (rr : RecvResult) (sres : SendResult) : Outcome :=
  match rr with
  | RecvResult.err e =>
      if errno_ignore_check X e then Outcome.cont prev st none else Outcome.fatal e
  | RecvResult.data E payload =>
      if payload.length = 0 then Outcome.cont prev st none
      else
        let st1 := { st with
          count_listen_packet_receive :=
            (st.count_listen_packet_receive + 1) % ULONG_MOD
          count_listen_byte_receive :=
            (st.count_listen_byte_receive + payload.length) % ULONG_MOD }
        if listenAccept s prev E then
          let prev2 := listenUpdate s prev E
          match sres with
          | SendResult.err e =>
              if errno_ignore_check X e then
                Outcome.cont prev2 st1 (some (caddr, payload))
              else Outcome.fatal e
          | SendResult.ok n =>
              let st2 := { st1 with
                count_connect_packet_send :=
                  (st1.count_connect_packet_send + 1) % ULONG_MOD
                count_connect_byte_send :=
                  (st1.count_connect_byte_send + n) % ULONG_MOD }
              Outcome.cont prev2 st2 (some (caddr, payload))
        else Outcome.cont prev st1 none

/-- The SEND-socket block of the main loop (udp-redirect.c:916-968).
Accepted datagrams are forwarded to the tracked listen-side endpoint. -/
def sendEvent (s : Settings) (X : Nat → Bool) (caddr prev : Endpoint)
    (st : Stats) (rr : RecvResult) (sres : SendResult) : Outcome :=
  match rr with
  | RecvResult.err e =>
      if errno_ignore_check X e then Outcome.cont prev st none else Outcome.fatal e
  | RecvResult.data E payload =>
      if payload.length = 0 then Outcome.cont prev st none
      else
        let st1 := { st with
          count_connect_packet_receive :=
            (st.count_connect_packet_receive + 1) % ULONG_MOD
          count_connect_byte_receive :=
            (st.count_connect_byte_receive + payload.length) % ULONG_MOD }
        if sendAccept s caddr prev E then
          match sres with
          | SendResult.err e =>
              if errno_ignore_check X e then
                Outcome.cont prev st1 (some (prev, payload))
              else Outcome.fatal e
          | SendResult.ok n =>
              let st2 := { st1 with
                count_listen_packet_send :=
                  (st1.count_listen_packet_send + 1) % ULONG_MOD
                count_listen_byte_send :=
                  (st1.count_listen_byte_send + n) % ULONG_MOD }
              Outcome.cont prev st2 (some (prev, payload))
        else Outcome.cont prev st1 none

/-- The evolution of `previous_endpoint` over a sequence of listen-side
datagram sources: exactly the accept/refresh logic of the loop body folded
over the sources. -/
def trackListen (s : Settings) (prev : Endpoint) (ds : List Endpoint) : Endpoint :=
  ds.foldl (fun p E => if listenAccept s p E then listenUpdate s p E else p) prev

/-- The both-or-neither validation of the expected-sender options
(udp-redirect.c:714-717). -/
def lsValid (s : Settings) : Bool :=
  !((s.lsaddr.isSome && decide (s.lsport = 0)) ||
    (s.lsaddr.isNone && decide (s.lsport ≠ 0)))

/-- The implied-strict rule (udp-redirect.c:720-722): configuring an
expected sender forces listen-strict on. -/
def applyImpliedStrict (s : Settings) : Settings :=
  if s.lsaddr.isSome && decide (s.lsport ≠ 0) then { s with lstrict := true } else s

/-- Initialization of `previous_endpoint` (udp-redirect.c:785-796): absent
expected-sender configuration leaves no endpoint (address 0); otherwise the
configured pair is pre-seeded (`none` models the fatal exit on an invalid
address literal). -/
def initPreviousEndpoint (s : Settings) : Option Endpoint :=
  if s.lsaddr.isNone && decide (s.lsport = 0) then some ⟨0, 0⟩
  else
    match s.lsaddr with
    | some a => if a = INADDR_NONE then none else some ⟨a, htons s.lsport⟩
    | none => none

/-- `stats_display` (udp-redirect.c:454-523): roll the eight interval
counters into the cumulative ones with the `unsigned long` wrapping `+=`,
then zero the interval counters. The `now` argument only feeds the printed
rates. -/
def stats_display (st : Stats) (_now : Nat) : Stats :=
  { st with
    count_listen_packet_receive_total :=
      (st.count_listen_packet_receive_total +
        st.count_listen_packet_receive) % ULONG_MOD
    count_listen_byte_receive_total :=
      (st.count_listen_byte_receive_total +
        st.count_listen_byte_receive) % ULONG_MOD
    count_listen_packet_send_total :=
      (st.count_listen_packet_send_total +
        st.count_listen_packet_send) % ULONG_MOD
    count_listen_byte_send_total :=
      (st.count_listen_byte_send_total +
        st.count_listen_byte_send) % ULONG_MOD
    count_connect_packet_receive_total :=
      (st.count_connect_packet_receive_total +
        st.count_connect_packet_receive) % ULONG_MOD
    count_connect_byte_receive_total :=
      (st.count_connect_byte_receive_total +
        st.count_connect_byte_receive) % ULONG_MOD
    count_connect_packet_send_total :=
      (st.count_connect_packet_send_total +
        st.count_connect_packet_send) % ULONG_MOD
    count_connect_byte_send_total :=
      (st.count_connect_byte_send_total +
        st.count_connect_byte_send) % ULONG_MOD
    count_listen_packet_receive := 0
    count_listen_byte_receive := 0
    count_listen_packet_send := 0
    count_listen_byte_send := 0
    count_connect_packet_receive := 0
    count_connect_byte_receive := 0
    count_connect_packet_send := 0
    count_connect_byte_send := 0 }

/-- The statistics timer test of the main loop (udp-redirect.c:829): emit
when stats are enabled and more than `STATS_DELAY_SECONDS` elapsed since the
last display. -/
def statsDue (statsEnabled : Bool) (time_display_last now : Nat) : Bool :=
  statsEnabled && decide (now - time_display_last > STATS_DELAY_SECONDS)

/-- Pointwise order on the eight cumulative counters: the relation that
"cumulative counters only grow" asserts is preserved. -/
def totalsLe (a b : Stats) : Prop :=
  a.count_listen_packet_receive_total ≤ b.count_listen_packet_receive_total ∧
  a.count_listen_byte_receive_total ≤ b.count_listen_byte_receive_total ∧
  a.count_listen_packet_send_total ≤ b.count_listen_packet_send_total ∧
  a.count_listen_byte_send_total ≤ b.count_listen_byte_send_total ∧
  a.count_connect_packet_receive_total ≤ b.count_connect_packet_receive_total ∧
  a.count_connect_byte_receive_total ≤ b.count_connect_byte_receive_total ∧
  a.count_connect_packet_send_total ≤ b.count_connect_packet_send_total ∧
  a.count_connect_byte_send_total ≤ b.count_connect_byte_send_total

/-- A counter state at the wrap boundary: the listen byte total holds
`ULONG_MAX` and one interval byte is pending roll-in. -/
def wrapStats : Stats :=
  { statistics_initializer with
    count_listen_byte_receive_total := ULONG_MOD - 1
    count_listen_byte_receive := 1 }

/-! ## Helper lemmas -/

/-- The listen-socket acceptance test, read as a proposition. -/
theorem listenAccept_iff (s : Settings) (prev E : Endpoint) :
    listenAccept s prev E = true ↔
      (prev.addr = 0 ∨ s.lstrict = false ∨ (prev.addr = E.addr ∧ prev.port = E.port)) := by
  simp [listenAccept, or_assoc]

/-- The send-socket acceptance test, read as a proposition. -/
theorem sendAccept_iff (s : Settings) (caddr prev E : Endpoint) :
    sendAccept s caddr prev E = true ↔
      (prev.addr ≠ 0 ∧ (s.cstrict = false ∨ (caddr.addr = E.addr ∧ caddr.port = E.port))) := by
  simp [sendAccept]

/-- With strict mode off, every listen-side datagram re-learns the tracked
endpoint, so a fold over the sources ends at the last one. -/
theorem trackListen_nonstrict (s : Settings) (hs : s.lstrict = false)
    (prev0 : Endpoint) (ds : List Endpoint) (h : ds ≠ []) :
    trackListen s prev0 ds = ds.getLast h := by
  induction ds generalizing prev0 with
  | nil => exact absurd rfl h
  | cons d rest ih =>
    cases rest with
    | nil => simp [trackListen, listenAccept, listenUpdate, hs, List.getLast]
    | cons d2 rest2 =>
      have h2 : (d2 :: rest2 : List Endpoint) ≠ [] := by simp
      have hstep : trackListen s prev0 (d :: d2 :: rest2) =
          trackListen s (if listenAccept s prev0 d then listenUpdate s prev0 d else prev0)
            (d2 :: rest2) := rfl
      rw [hstep, ih _ h2, List.getLast_cons h2]

/-- With strict mode on and a learned (nonzero-address) endpoint, no later
datagram changes the tracked endpoint. -/
theorem trackListen_strict_frozen (s : Settings) (hs : s.lstrict = true)
    (d : Endpoint) (hd : d.addr ≠ 0) (rest : List Endpoint) :
    trackListen s d rest = d := by
  induction rest with
  | nil => rfl
  | cons E rest2 ih =>
    have hstep : (if listenAccept s d E then listenUpdate s d E else d) = d := by
      by_cases hacc : listenAccept s d E
      · rw [if_pos hacc]
        simp [listenUpdate, hd, hs]
      · rw [if_neg hacc]
    have hfold : trackListen s d (E :: rest2) =
        trackListen s (if listenAccept s d E then listenUpdate s d E else d) rest2 := rfl
    rw [hfold, hstep, ih]

/-! ## Claim theorems -/

/-- C4: the error classifier marks an errno ignorable iff it is `EINTR`, or
ignore-errors is enabled and it is one of `EAGAIN`, `EHOSTUNREACH`,
`ENETDOWN`, `ENETUNREACH`, `ENOBUFS`, `EPIPE`, `EADDRNOTAVAIL`; every other
errno is fatal. -/
theorem errno_classifier_iff (b : Bool) (e : Nat) :
    errno_ignore_check (build_errno_ignore b) e = true ↔
      (e = EINTR ∨ (b = true ∧
        (e = EAGAIN ∨ e = EHOSTUNREACH ∨ e = ENETDOWN ∨ e = ENETUNREACH ∨
         e = ENOBUFS ∨ e = EPIPE ∨ e = EADDRNOTAVAIL))) := by
  cases b <;>
    simp [build_errno_ignore, errno_ignore_set, errno_ignore_check, errno_ignore_init,
      EINTR, EAGAIN, EHOSTUNREACH, ENETDOWN, ENETUNREACH, ENOBUFS, EPIPE,
      EADDRNOTAVAIL, MAX_ERRNO] <;>
    omega

/-- C6: a configuration with both expected-sender options set pre-seeds the
tracked listen-side endpoint with exactly that address/port pair (port in
network byte order, as stored) before any packet arrives, and forces
listen-strict on. -/
theorem expected_sender_preseed (s : Settings) (a p : Nat)
    (ha : s.lsaddr = some a) (hp : s.lsport = p) (hp0 : p ≠ 0)
    (hv : a ≠ INADDR_NONE) :
    initPreviousEndpoint s = some ⟨a, htons p⟩ ∧
      (applyImpliedStrict s).lstrict = true := by
  constructor
  · simp [initPreviousEndpoint, ha, hp, hp0, hv]
  · simp [applyImpliedStrict, ha, hp, hp0]

theorem expected_sender_preseed_witness :
    ((⟨false, false, some 16777343, 9000, true, false⟩ : Settings).lsaddr = some 16777343 ∧
      (⟨false, false, some 16777343, 9000, true, false⟩ : Settings).lsport = 9000 ∧
      (9000 : Nat) ≠ 0 ∧ (16777343 : Nat) ≠ INADDR_NONE) ∧
    (initPreviousEndpoint ⟨false, false, some 16777343, 9000, true, false⟩ =
        some ⟨16777343, htons 9000⟩ ∧
      (applyImpliedStrict ⟨false, false, some 16777343, 9000, true, false⟩).lstrict = true) :=
  ⟨⟨rfl, rfl, by decide, by decide⟩,
    expected_sender_preseed ⟨false, false, some 16777343, 9000, true, false⟩ 16777343 9000
      rfl rfl (by decide) (by decide)⟩

/-- C10: the last-display timestamp starts at 0 and the loop's timer test
fires whenever now minus last-display exceeds 60 seconds, so with statistics
enabled the first emission happens on the first loop iteration (any
realistic clock value exceeds 60). -/
theorem stats_first_emission_immediate (now : Nat)
    (hnow : STATS_DELAY_SECONDS < now) :
    statistics_initializer.time_display_last = 0 ∧
      statsDue true statistics_initializer.time_display_last now = true := by
  refine ⟨rfl, ?_⟩
  simp [statsDue, statistics_initializer]
  omega

theorem stats_first_emission_immediate_witness :
    STATS_DELAY_SECONDS < 1700000000 ∧
      (statistics_initializer.time_display_last = 0 ∧
        statsDue true statistics_initializer.time_display_last 1700000000 = true) :=
  ⟨by decide, stats_first_emission_immediate 1700000000 (by decide)⟩

/-- C1: a listen-socket datagram from source `E` (nonempty payload, send
succeeding) is accepted and forwarded iff the tracked endpoint is unknown
(address 0), or listen-strict is off, or the tracked endpoint equals `E`;
on acceptance, if the tracked endpoint is unknown or strict is off it is
set/refreshed to `E`; hence with strict off the endpoint after a sequence
of datagrams is the source of the last one. -/
theorem listen_accept_iff_refresh (s : Settings) (X : Nat → Bool)
    (caddr prev : Endpoint) (st : Stats) (E : Endpoint) (payload : List Nat)
    (n : Nat) (hp : payload ≠ []) :
    ((listenEvent s X caddr prev st (RecvResult.data E payload)
        (SendResult.ok n)).forwards = true ↔
      (prev.addr = 0 ∨ s.lstrict = false ∨
        (prev.addr = E.addr ∧ prev.port = E.port))) ∧
    ((prev.addr = 0 ∨ s.lstrict = false) →
      (listenEvent s X caddr prev st (RecvResult.data E payload)
        (SendResult.ok n)).trackedEndpoint = some E) ∧
    (s.lstrict = false → ∀ (prev0 : Endpoint) (ds : List Endpoint)
      (h : ds ≠ []), trackListen s prev0 ds = ds.getLast h) := by
  have hlen : ¬ payload.length = 0 := by simpa using hp
  refine ⟨?_, ?_, ?_⟩
  · rw [← listenAccept_iff]
    by_cases hacc : listenAccept s prev E <;>
      simp [listenEvent, hlen, hacc, Outcome.forwards]
  · intro hset
    have hacc : listenAccept s prev E = true := by
      rw [listenAccept_iff]
      tauto
    have hupd : listenUpdate s prev E = E := by
      rcases hset with h | h <;> simp [listenUpdate, h]
    simp [listenEvent, hlen, hacc, hupd, Outcome.trackedEndpoint]
  · intro hs prev0 ds h
    exact trackListen_nonstrict s hs prev0 ds h

theorem listen_accept_iff_refresh_witness :
    ([3] : List Nat) ≠ [] ∧
    (((listenEvent ⟨false, false, none, 0, true, false⟩ (build_errno_ignore true)
        ⟨5, 6⟩ ⟨0, 0⟩ statistics_initializer (RecvResult.data ⟨7, 9⟩ [3])
        (SendResult.ok 1)).forwards = true ↔
      ((⟨0, 0⟩ : Endpoint).addr = 0 ∨
        (⟨false, false, none, 0, true, false⟩ : Settings).lstrict = false ∨
        ((⟨0, 0⟩ : Endpoint).addr = (⟨7, 9⟩ : Endpoint).addr ∧
          (⟨0, 0⟩ : Endpoint).port = (⟨7, 9⟩ : Endpoint).port))) ∧
    (((⟨0, 0⟩ : Endpoint).addr = 0 ∨
        (⟨false, false, none, 0, true, false⟩ : Settings).lstrict = false) →
      (listenEvent ⟨false, false, none, 0, true, false⟩ (build_errno_ignore true)
        ⟨5, 6⟩ ⟨0, 0⟩ statistics_initializer (RecvResult.data ⟨7, 9⟩ [3])
        (SendResult.ok 1)).trackedEndpoint = some ⟨7, 9⟩) ∧
    ((⟨false, false, none, 0, true, false⟩ : Settings).lstrict = false →
      ∀ (prev0 : Endpoint) (ds : List Endpoint) (h : ds ≠ []),
        trackListen ⟨false, false, none, 0, true, false⟩ prev0 ds = ds.getLast h)) :=
  ⟨by decide,
    listen_accept_iff_refresh ⟨false, false, none, 0, true, false⟩
      (build_errno_ignore true) ⟨5, 6⟩ ⟨0, 0⟩ statistics_initializer ⟨7, 9⟩ [3] 1
      (by decide)⟩

/-- C3: a send-socket datagram from source `E` (nonempty payload, send
succeeding) is accepted and forwarded iff a listen-side endpoint has been
learned (nonzero address) and, when connect-strict is on, `E` equals the
fixed connect endpoint; otherwise it is dropped. -/
theorem send_accept_iff (s : Settings) (X : Nat → Bool) (caddr prev : Endpoint)
    (st : Stats) (E : Endpoint) (payload : List Nat) (n : Nat)
    (hp : payload ≠ []) :
    (sendEvent s X caddr prev st (RecvResult.data E payload)
        (SendResult.ok n)).forwards = true ↔
      (prev.addr ≠ 0 ∧ (s.cstrict = false ∨
        (caddr.addr = E.addr ∧ caddr.port = E.port))) := by
  have hlen : ¬ payload.length = 0 := by simpa using hp
  rw [← sendAccept_iff]
  by_cases hacc : sendAccept s caddr prev E <;>
    simp [sendEvent, hlen, hacc, Outcome.forwards]

theorem send_accept_iff_witness :
    ([3] : List Nat) ≠ [] ∧
    ((sendEvent ⟨false, false, none, 0, true, false⟩ (build_errno_ignore true)
        ⟨5, 6⟩ ⟨7, 9⟩ statistics_initializer (RecvResult.data ⟨5, 6⟩ [3])
        (SendResult.ok 1)).forwards = true ↔
      ((⟨7, 9⟩ : Endpoint).addr ≠ 0 ∧
        ((⟨false, false, none, 0, true, false⟩ : Settings).cstrict = false ∨
          ((⟨5, 6⟩ : Endpoint).addr = (⟨5, 6⟩ : Endpoint).addr ∧
            (⟨5, 6⟩ : Endpoint).port = (⟨5, 6⟩ : Endpoint).port)))) :=
  ⟨by decide,
    send_accept_iff ⟨false, false, none, 0, true, false⟩ (build_errno_ignore true)
      ⟨5, 6⟩ ⟨7, 9⟩ statistics_initializer ⟨5, 6⟩ [3] 1 (by decide)⟩

/-- C9: because "no endpoint" is encoded as address 0, a listen-side
datagram whose source address is 0.0.0.0 arriving while the tracker is
unknown is accepted and forwarded, yet the tracker still holds address 0
afterwards: the endpoint is not frozen even under listen-strict (any later
source is still accepted) and the send socket keeps rejecting all replies. -/
theorem zero_source_never_learned (s : Settings) (X : Nat → Bool)
    (caddr prev : Endpoint) (st : Stats) (E : Endpoint) (payload : List Nat)
    (n : Nat) (hprev : prev.addr = 0) (hE : E.addr = 0) (hp : payload ≠ []) :
    (listenEvent s X caddr prev st (RecvResult.data E payload)
        (SendResult.ok n)).forwards = true ∧
    (listenEvent s X caddr prev st (RecvResult.data E payload)
        (SendResult.ok n)).trackedEndpoint = some E ∧
    (listenUpdate s prev E).addr = 0 ∧
    (∀ F : Endpoint, listenAccept s (listenUpdate s prev E) F = true) ∧
    (∀ R : Endpoint, sendAccept s caddr (listenUpdate s prev E) R = false) := by
  have hlen : ¬ payload.length = 0 := by simpa using hp
  have hacc : listenAccept s prev E = true := by
    simp [listenAccept, hprev]
  have hupd : listenUpdate s prev E = E := by
    simp [listenUpdate, hprev]
  refine ⟨?_, ?_, ?_, ?_, ?_⟩
  · simp [listenEvent, hlen, hacc, Outcome.forwards]
  · simp [listenEvent, hlen, hacc, hupd, Outcome.trackedEndpoint]
  · rw [hupd, hE]
  · intro F
    simp [listenAccept, hupd, hE]
  · intro R
    simp [sendAccept, hupd, hE]

theorem zero_source_never_learned_witness :
    ((⟨0, 0⟩ : Endpoint).addr = 0 ∧ (⟨0, 44⟩ : Endpoint).addr = 0 ∧
      ([7] : List Nat) ≠ []) ∧
    ((listenEvent ⟨true, false, none, 0, true, false⟩ (build_errno_ignore true)
        ⟨5, 6⟩ ⟨0, 0⟩ statistics_initializer (RecvResult.data ⟨0, 44⟩ [7])
        (SendResult.ok 1)).forwards = true ∧
    (listenEvent ⟨true, false, none, 0, true, false⟩ (build_errno_ignore true)
        ⟨5, 6⟩ ⟨0, 0⟩ statistics_initializer (RecvResult.data ⟨0, 44⟩ [7])
        (SendResult.ok 1)).trackedEndpoint = some ⟨0, 44⟩ ∧
    (listenUpdate ⟨true, false, none, 0, true, false⟩ ⟨0, 0⟩ ⟨0, 44⟩).addr = 0 ∧
    (∀ F : Endpoint, listenAccept ⟨true, false, none, 0, true, false⟩
        (listenUpdate ⟨true, false, none, 0, true, false⟩ ⟨0, 0⟩ ⟨0, 44⟩) F = true) ∧
    (∀ R : Endpoint, sendAccept ⟨true, false, none, 0, true, false⟩ ⟨5, 6⟩
        (listenUpdate ⟨true, false, none, 0, true, false⟩ ⟨0, 0⟩ ⟨0, 44⟩) R = false)) :=
  ⟨⟨rfl, rfl, by decide⟩,
    zero_source_never_learned ⟨true, false, none, 0, true, false⟩
      (build_errno_ignore true) ⟨5, 6⟩ ⟨0, 0⟩ statistics_initializer ⟨0, 44⟩ [7] 1
      rfl rfl (by decide)⟩

/-- C2 counterexample: listen-strict on, no pre-seeded sender (the tracker
starts at address 0). A first datagram from source (0, 5) is accepted and
"learned", yet because address 0 is the Unknown encoding, a second datagram
from the different source (7, 8) is still accepted, forwarded, and
overwrites the tracked endpoint — so the endpoint does not equal the first
accepted source and did change afterwards. -/
theorem strict_first_learn_counterexample :
    initPreviousEndpoint ⟨true, false, none, 0, true, false⟩ = some ⟨0, 0⟩ ∧
    listenAccept ⟨true, false, none, 0, true, false⟩ ⟨0, 0⟩ ⟨0, 5⟩ = true ∧
    listenUpdate ⟨true, false, none, 0, true, false⟩ ⟨0, 0⟩ ⟨0, 5⟩ = ⟨0, 5⟩ ∧
    listenAccept ⟨true, false, none, 0, true, false⟩ ⟨0, 5⟩ ⟨7, 8⟩ = true ∧
    (listenEvent ⟨true, false, none, 0, true, false⟩ (build_errno_ignore true)
        ⟨5, 6⟩ ⟨0, 5⟩ statistics_initializer (RecvResult.data ⟨7, 8⟩ [9])
        (SendResult.ok 1)).forwards = true ∧
    trackListen ⟨true, false, none, 0, true, false⟩ ⟨0, 0⟩ [⟨0, 5⟩, ⟨7, 8⟩] =
      ⟨7, 8⟩ ∧
    (⟨7, 8⟩ : Endpoint) ≠ ⟨0, 5⟩ := by
  decide

/-- C2 (amended): with listen-strict on, a tracker starting unknown, and a
first datagram whose source address is nonzero, the learned endpoint equals
that first source and never changes over any sequence of later datagrams;
every datagram from a different source is rejected, not forwarded, and
leaves the tracked endpoint unchanged. -/
theorem strict_first_learn_amended (s : Settings) (hs : s.lstrict = true)
    (prev0 : Endpoint) (h0 : prev0.addr = 0) (d : Endpoint) (hd : d.addr ≠ 0)
    (rest : List Endpoint) :
    trackListen s prev0 (d :: rest) = d ∧
    (∀ E : Endpoint, ¬(E.addr = d.addr ∧ E.port = d.port) →
      listenAccept s d E = false) ∧
    (∀ (X : Nat → Bool) (caddr : Endpoint) (st : Stats) (E : Endpoint)
        (payload : List Nat) (n : Nat),
      ¬(E.addr = d.addr ∧ E.port = d.port) →
      (listenEvent s X caddr d st (RecvResult.data E payload)
          (SendResult.ok n)).forwards = false ∧
      (listenEvent s X caddr d st (RecvResult.data E payload)
          (SendResult.ok n)).trackedEndpoint = some d) := by
  have haccF : ∀ E : Endpoint, ¬(E.addr = d.addr ∧ E.port = d.port) →
      listenAccept s d E = false := by
    intro E hne
    have hne2 : ¬(d.addr = E.addr ∧ d.port = E.port) := by
      intro h
      exact hne ⟨h.1.symm, h.2.symm⟩
    simp [listenAccept, hs, hd]
    tauto
  refine ⟨?_, haccF, ?_⟩
  · have hstep : trackListen s prev0 (d :: rest) =
        trackListen s (if listenAccept s prev0 d then listenUpdate s prev0 d
          else prev0) rest := rfl
    have hacc0 : listenAccept s prev0 d = true := by
      simp [listenAccept, h0]
    have hupd0 : listenUpdate s prev0 d = d := by
      simp [listenUpdate, h0]
    rw [hstep, hacc0, if_pos rfl, hupd0]
    exact trackListen_strict_frozen s hs d hd rest
  · intro X caddr st E payload n hne
    have hacc : listenAccept s d E = false := haccF E hne
    by_cases hlen : payload.length = 0
    · constructor <;>
        simp [listenEvent, hlen, Outcome.forwards, Outcome.trackedEndpoint]
    · constructor <;>
        simp [listenEvent, hlen, hacc, Outcome.forwards, Outcome.trackedEndpoint]

theorem strict_first_learn_amended_witness :
    ((⟨true, false, none, 0, true, false⟩ : Settings).lstrict = true ∧
      (⟨0, 0⟩ : Endpoint).addr = 0 ∧ (⟨7, 9⟩ : Endpoint).addr ≠ 0) ∧
    (trackListen ⟨true, false, none, 0, true, false⟩ ⟨0, 0⟩
        [⟨7, 9⟩, ⟨8, 1⟩] = ⟨7, 9⟩ ∧
    (∀ E : Endpoint, ¬(E.addr = (⟨7, 9⟩ : Endpoint).addr ∧
        E.port = (⟨7, 9⟩ : Endpoint).port) →
      listenAccept ⟨true, false, none, 0, true, false⟩ ⟨7, 9⟩ E = false) ∧
    (∀ (X : Nat → Bool) (caddr : Endpoint) (st : Stats) (E : Endpoint)
        (payload : List Nat) (n : Nat),
      ¬(E.addr = (⟨7, 9⟩ : Endpoint).addr ∧ E.port = (⟨7, 9⟩ : Endpoint).port) →
      (listenEvent ⟨true, false, none, 0, true, false⟩ X caddr ⟨7, 9⟩ st
          (RecvResult.data E payload) (SendResult.ok n)).forwards = false ∧
      (listenEvent ⟨true, false, none, 0, true, false⟩ X caddr ⟨7, 9⟩ st
          (RecvResult.data E payload) (SendResult.ok n)).trackedEndpoint =
        some ⟨7, 9⟩)) :=
  ⟨⟨rfl, rfl, by decide⟩,
    strict_first_learn_amended ⟨true, false, none, 0, true, false⟩ rfl ⟨0, 0⟩ rfl
      ⟨7, 9⟩ (by decide) [⟨8, 1⟩]⟩

/-- Whatever the listen-socket block hands to `sendto` is the received
payload addressed at the fixed connect endpoint. -/
theorem listenEvent_output_eq (s : Settings) (X : Nat → Bool)
    (caddr prev : Endpoint) (st : Stats) (E : Endpoint) (pl : List Nat)
    (r : SendResult) (d : Endpoint × List Nat)
    (h : (listenEvent s X caddr prev st (RecvResult.data E pl) r).output =
      some d) :
    d = (caddr, pl) := by
  rcases r with n | e
  · by_cases hlen : pl.length = 0
    · simp [listenEvent, hlen, Outcome.output] at h
    · by_cases hacc : listenAccept s prev E
      · simp [listenEvent, hlen, hacc, Outcome.output] at h
        exact h.symm
      · simp [listenEvent, hlen, hacc, Outcome.output] at h
  · by_cases hlen : pl.length = 0
    · simp [listenEvent, hlen, Outcome.output] at h
    · by_cases hacc : listenAccept s prev E
      · by_cases hign : errno_ignore_check X e
        · simp [listenEvent, hlen, hacc, hign, Outcome.output] at h
          exact h.symm
        · simp [listenEvent, hlen, hacc, hign, Outcome.output] at h
      · simp [listenEvent, hlen, hacc, Outcome.output] at h

/-- Whatever the send-socket block hands to `sendto` is the received payload
addressed at the tracked listen-side endpoint. -/
theorem sendEvent_output_eq (s : Settings) (X : Nat → Bool)
    (caddr prev : Endpoint) (st : Stats) (E : Endpoint) (pl : List Nat)
    (r : SendResult) (d : Endpoint × List Nat)
    (h : (sendEvent s X caddr prev st (RecvResult.data E pl) r).output =
      some d) :
    d = (prev, pl) := by
  rcases r with n | e
  · by_cases hlen : pl.length = 0
    · simp [sendEvent, hlen, Outcome.output] at h
    · by_cases hacc : sendAccept s caddr prev E
      · simp [sendEvent, hlen, hacc, Outcome.output] at h
        exact h.symm
      · simp [sendEvent, hlen, hacc, Outcome.output] at h
  · by_cases hlen : pl.length = 0
    · simp [sendEvent, hlen, Outcome.output] at h
    · by_cases hacc : sendAccept s caddr prev E
      · by_cases hign : errno_ignore_check X e
        · simp [sendEvent, hlen, hacc, hign, Outcome.output] at h
          exact h.symm
        · simp [sendEvent, hlen, hacc, hign, Outcome.output] at h
      · simp [sendEvent, hlen, hacc, Outcome.output] at h

/-- C5: for every accepted datagram the forwarded bytes equal the received
payload exactly, addressed at the fixed connect endpoint in the
listen-to-send direction and at the tracked listen-side endpoint in the
send-to-listen direction. -/
theorem forward_payload_exact (s : Settings) (X : Nat → Bool)
    (caddr prev : Endpoint) (st st2 : Stats) (E E2 : Endpoint)
    (pl pl2 : List Nat) (r r2 : SendResult) (dL dS : Endpoint × List Nat)
    (hL : (listenEvent s X caddr prev st (RecvResult.data E pl) r).output =
      some dL)
    (hS : (sendEvent s X caddr prev st2 (RecvResult.data E2 pl2) r2).output =
      some dS) :
    dL.1 = caddr ∧ dL.2 = pl ∧ dS.1 = prev ∧ dS.2 = pl2 := by
  have h1 := listenEvent_output_eq s X caddr prev st E pl r dL hL
  have h2 := sendEvent_output_eq s X caddr prev st2 E2 pl2 r2 dS hS
  simp [h1, h2]

theorem forward_payload_exact_witness :
    ((listenEvent ⟨false, false, none, 0, true, false⟩ (build_errno_ignore true)
        ⟨5, 6⟩ ⟨7, 9⟩ statistics_initializer (RecvResult.data ⟨8, 1⟩ [3, 4])
        (SendResult.ok 2)).output = some (⟨5, 6⟩, [3, 4]) ∧
      (sendEvent ⟨false, false, none, 0, true, false⟩ (build_errno_ignore true)
        ⟨5, 6⟩ ⟨7, 9⟩ statistics_initializer (RecvResult.data ⟨5, 6⟩ [8])
        (SendResult.ok 1)).output = some (⟨7, 9⟩, [8])) ∧
    (((⟨5, 6⟩, [3, 4]) : Endpoint × List Nat).1 = ⟨5, 6⟩ ∧
      ((⟨5, 6⟩, [3, 4]) : Endpoint × List Nat).2 = [3, 4] ∧
      ((⟨7, 9⟩, [8]) : Endpoint × List Nat).1 = ⟨7, 9⟩ ∧
      ((⟨7, 9⟩, [8]) : Endpoint × List Nat).2 = [8]) :=
  ⟨⟨by decide, by decide⟩,
    forward_payload_exact ⟨false, false, none, 0, true, false⟩
      (build_errno_ignore true) ⟨5, 6⟩ ⟨7, 9⟩ statistics_initializer
      statistics_initializer ⟨8, 1⟩ ⟨5, 6⟩ [3, 4] [8] (SendResult.ok 2)
      (SendResult.ok 1) (⟨5, 6⟩, [3, 4]) (⟨7, 9⟩, [8]) (by decide) (by decide)⟩

/-- Handling a listen-socket event never changes the cumulative counters. -/
theorem listenEvent_totals (s : Settings) (X : Nat → Bool)
    (caddr prev : Endpoint) (st : Stats) (rr : RecvResult) (sres : SendResult)
    (st2 : Stats)
    (h : (listenEvent s X caddr prev st rr sres).statsAfter = some st2) :
    totalsLe st st2 := by
  rcases rr with e | ⟨E, pl⟩
  · by_cases hign : errno_ignore_check X e <;>
      simp [listenEvent, hign, Outcome.statsAfter] at h <;>
      simp [← h, totalsLe]
  · by_cases hlen : pl.length = 0
    · simp [listenEvent, hlen, Outcome.statsAfter] at h
      simp [← h, totalsLe]
    · by_cases hacc : listenAccept s prev E
      · rcases sres with n | e
        · simp [listenEvent, hlen, hacc, Outcome.statsAfter] at h
          simp [← h, totalsLe]
        · by_cases hign : errno_ignore_check X e <;>
            simp [listenEvent, hlen, hacc, hign, Outcome.statsAfter] at h <;>
            simp [← h, totalsLe]
      · simp [listenEvent, hlen, hacc, Outcome.statsAfter] at h
        simp [← h, totalsLe]

/-- Handling a send-socket event never changes the cumulative counters. -/
theorem sendEvent_totals (s : Settings) (X : Nat → Bool)
    (caddr prev : Endpoint) (st : Stats) (rr : RecvResult) (sres : SendResult)
    (st2 : Stats)
    (h : (sendEvent s X caddr prev st rr sres).statsAfter = some st2) :
    totalsLe st st2 := by
  rcases rr with e | ⟨E, pl⟩
  · by_cases hign : errno_ignore_check X e <;>
      simp [sendEvent, hign, Outcome.statsAfter] at h <;>
      simp [← h, totalsLe]
  · by_cases hlen : pl.length = 0
    · simp [sendEvent, hlen, Outcome.statsAfter] at h
      simp [← h, totalsLe]
    · by_cases hacc : sendAccept s caddr prev E
      · rcases sres with n | e
        · simp [sendEvent, hlen, hacc, Outcome.statsAfter] at h
          simp [← h, totalsLe]
        · by_cases hign : errno_ignore_check X e <;>
            simp [sendEvent, hlen, hacc, hign, Outcome.statsAfter] at h <;>
            simp [← h, totalsLe]
      · simp [sendEvent, hlen, hacc, Outcome.statsAfter] at h
        simp [← h, totalsLe]

/-- C7 counterexample: the cumulative counters are C `unsigned long`, so
the roll-in addition wraps; with the listen byte total at `ULONG_MAX` and
one interval byte pending, a statistics emission drops that cumulative
counter to 0 — cumulative counters are not monotonically non-decreasing
across the whole process lifetime. -/
theorem stats_total_wrap_counterexample :
    wrapStats.count_listen_byte_receive_total = ULONG_MOD - 1 ∧
    (stats_display wrapStats 100).count_listen_byte_receive_total = 0 ∧
    (stats_display wrapStats 100).count_listen_byte_receive_total <
      wrapStats.count_listen_byte_receive_total ∧
    ¬ totalsLe wrapStats (stats_display wrapStats 100) := by
  have h0 : (stats_display wrapStats 100).count_listen_byte_receive_total = 0 := by
    norm_num [stats_display, wrapStats, statistics_initializer, ULONG_MOD]
  refine ⟨rfl, h0, ?_, ?_⟩
  · rw [h0]
    norm_num [wrapStats, statistics_initializer, ULONG_MOD]
  · intro hle
    have h2 := hle.2.1
    rw [h0] at h2
    norm_num [wrapStats, statistics_initializer, ULONG_MOD] at h2

/-- C7 (amended): a statistics emission rolls each of the eight interval
counters into its cumulative counter with the `unsigned long` wrapping
addition (modulo `ULONG_MOD`) and zeroes all eight interval counters;
socket events never change the cumulative counters, and each emission
leaves every cumulative counter non-decreasing provided no roll-in wraps
(each cumulative + interval sum stays below `ULONG_MOD`). -/
theorem stats_roll_reset_monotone (st st2L st2S : Stats) (now : Nat)
    (sL sS : Settings) (XL XS : Nat → Bool)
    (caddrL caddrS prevL prevS : Endpoint) (rrL rrS : RecvResult)
    (srL srS : SendResult)
    (hL : (listenEvent sL XL caddrL prevL st rrL srL).statsAfter = some st2L)
    (hS : (sendEvent sS XS caddrS prevS st rrS srS).statsAfter = some st2S)
    (hw1 : st.count_listen_packet_receive_total +
      st.count_listen_packet_receive < ULONG_MOD)
    (hw2 : st.count_listen_byte_receive_total +
      st.count_listen_byte_receive < ULONG_MOD)
    (hw3 : st.count_listen_packet_send_total +
      st.count_listen_packet_send < ULONG_MOD)
    (hw4 : st.count_listen_byte_send_total +
      st.count_listen_byte_send < ULONG_MOD)
    (hw5 : st.count_connect_packet_receive_total +
      st.count_connect_packet_receive < ULONG_MOD)
    (hw6 : st.count_connect_byte_receive_total +
      st.count_connect_byte_receive < ULONG_MOD)
    (hw7 : st.count_connect_packet_send_total +
      st.count_connect_packet_send < ULONG_MOD)
    (hw8 : st.count_connect_byte_send_total +
      st.count_connect_byte_send < ULONG_MOD) :
    ((stats_display st now).count_listen_packet_receive_total =
        (st.count_listen_packet_receive_total +
          st.count_listen_packet_receive) % ULONG_MOD ∧
      (stats_display st now).count_listen_byte_receive_total =
        (st.count_listen_byte_receive_total +
          st.count_listen_byte_receive) % ULONG_MOD ∧
      (stats_display st now).count_listen_packet_send_total =
        (st.count_listen_packet_send_total +
          st.count_listen_packet_send) % ULONG_MOD ∧
      (stats_display st now).count_listen_byte_send_total =
        (st.count_listen_byte_send_total +
          st.count_listen_byte_send) % ULONG_MOD ∧
      (stats_display st now).count_connect_packet_receive_total =
        (st.count_connect_packet_receive_total +
          st.count_connect_packet_receive) % ULONG_MOD ∧
      (stats_display st now).count_connect_byte_receive_total =
        (st.count_connect_byte_receive_total +
          st.count_connect_byte_receive) % ULONG_MOD ∧
      (stats_display st now).count_connect_packet_send_total =
        (st.count_connect_packet_send_total +
          st.count_connect_packet_send) % ULONG_MOD ∧
      (stats_display st now).count_connect_byte_send_total =
        (st.count_connect_byte_send_total +
          st.count_connect_byte_send) % ULONG_MOD) ∧
    ((stats_display st now).count_listen_packet_receive = 0 ∧
      (stats_display st now).count_listen_byte_receive = 0 ∧
      (stats_display st now).count_listen_packet_send = 0 ∧
      (stats_display st now).count_listen_byte_send = 0 ∧
      (stats_display st now).count_connect_packet_receive = 0 ∧
      (stats_display st now).count_connect_byte_receive = 0 ∧
      (stats_display st now).count_connect_packet_send = 0 ∧
      (stats_display st now).count_connect_byte_send = 0) ∧
    totalsLe st (stats_display st now) ∧
    totalsLe st st2L ∧ totalsLe st st2S := by
  have hmono : totalsLe st (stats_display st now) :=
    ⟨le_trans (Nat.le_add_right _ _) (Nat.mod_eq_of_lt hw1).ge,
      le_trans (Nat.le_add_right _ _) (Nat.mod_eq_of_lt hw2).ge,
      le_trans (Nat.le_add_right _ _) (Nat.mod_eq_of_lt hw3).ge,
      le_trans (Nat.le_add_right _ _) (Nat.mod_eq_of_lt hw4).ge,
      le_trans (Nat.le_add_right _ _) (Nat.mod_eq_of_lt hw5).ge,
      le_trans (Nat.le_add_right _ _) (Nat.mod_eq_of_lt hw6).ge,
      le_trans (Nat.le_add_right _ _) (Nat.mod_eq_of_lt hw7).ge,
      le_trans (Nat.le_add_right _ _) (Nat.mod_eq_of_lt hw8).ge⟩
  exact ⟨⟨rfl, rfl, rfl, rfl, rfl, rfl, rfl, rfl⟩,
    ⟨rfl, rfl, rfl, rfl, rfl, rfl, rfl, rfl⟩, hmono,
    listenEvent_totals sL XL caddrL prevL st rrL srL st2L hL,
    sendEvent_totals sS XS caddrS prevS st rrS srS st2S hS⟩

theorem stats_roll_reset_monotone_witness :
    ((listenEvent ⟨false, false, none, 0, true, false⟩ (build_errno_ignore true)
        ⟨5, 6⟩ ⟨0, 0⟩ statistics_initializer (RecvResult.err EINTR)
        (SendResult.ok 1)).statsAfter = some statistics_initializer ∧
      (sendEvent ⟨false, false, none, 0, true, false⟩ (build_errno_ignore true)
        ⟨5, 6⟩ ⟨0, 0⟩ statistics_initializer (RecvResult.err EINTR)
        (SendResult.ok 1)).statsAfter = some statistics_initializer ∧
      statistics_initializer.count_listen_packet_receive_total +
        statistics_initializer.count_listen_packet_receive < ULONG_MOD ∧
      statistics_initializer.count_listen_byte_receive_total +
        statistics_initializer.count_listen_byte_receive < ULONG_MOD ∧
      statistics_initializer.count_listen_packet_send_total +
        statistics_initializer.count_listen_packet_send < ULONG_MOD ∧
      statistics_initializer.count_listen_byte_send_total +
        statistics_initializer.count_listen_byte_send < ULONG_MOD ∧
      statistics_initializer.count_connect_packet_receive_total +
        statistics_initializer.count_connect_packet_receive < ULONG_MOD ∧
      statistics_initializer.count_connect_byte_receive_total +
        statistics_initializer.count_connect_byte_receive < ULONG_MOD ∧
      statistics_initializer.count_connect_packet_send_total +
        statistics_initializer.count_connect_packet_send < ULONG_MOD ∧
      statistics_initializer.count_connect_byte_send_total +
        statistics_initializer.count_connect_byte_send < ULONG_MOD) ∧
    (((stats_display statistics_initializer 100).count_listen_packet_receive_total =
        (statistics_initializer.count_listen_packet_receive_total +
          statistics_initializer.count_listen_packet_receive) % ULONG_MOD ∧
      (stats_display statistics_initializer 100).count_listen_byte_receive_total =
        (statistics_initializer.count_listen_byte_receive_total +
          statistics_initializer.count_listen_byte_receive) % ULONG_MOD ∧
      (stats_display statistics_initializer 100).count_listen_packet_send_total =
        (statistics_initializer.count_listen_packet_send_total +
          statistics_initializer.count_listen_packet_send) % ULONG_MOD ∧
      (stats_display statistics_initializer 100).count_listen_byte_send_total =
        (statistics_initializer.count_listen_byte_send_total +
          statistics_initializer.count_listen_byte_send) % ULONG_MOD ∧
      (stats_display statistics_initializer 100).count_connect_packet_receive_total =
        (statistics_initializer.count_connect_packet_receive_total +
          statistics_initializer.count_connect_packet_receive) % ULONG_MOD ∧
      (stats_display statistics_initializer 100).count_connect_byte_receive_total =
        (statistics_initializer.count_connect_byte_receive_total +
          statistics_initializer.count_connect_byte_receive) % ULONG_MOD ∧
      (stats_display statistics_initializer 100).count_connect_packet_send_total =
        (statistics_initializer.count_connect_packet_send_total +
          statistics_initializer.count_connect_packet_send) % ULONG_MOD ∧
      (stats_display statistics_initializer 100).count_connect_byte_send_total =
        (statistics_initializer.count_connect_byte_send_total +
          statistics_initializer.count_connect_byte_send) % ULONG_MOD) ∧
    ((stats_display statistics_initializer 100).count_listen_packet_receive = 0 ∧
      (stats_display statistics_initializer 100).count_listen_byte_receive = 0 ∧
      (stats_display statistics_initializer 100).count_listen_packet_send = 0 ∧
      (stats_display statistics_initializer 100).count_listen_byte_send = 0 ∧
      (stats_display statistics_initializer 100).count_connect_packet_receive = 0 ∧
      (stats_display statistics_initializer 100).count_connect_byte_receive = 0 ∧
      (stats_display statistics_initializer 100).count_connect_packet_send = 0 ∧
      (stats_display statistics_initializer 100).count_connect_byte_send = 0) ∧
    totalsLe statistics_initializer (stats_display statistics_initializer 100) ∧
    totalsLe statistics_initializer statistics_initializer ∧
    totalsLe statistics_initializer statistics_initializer) :=
  ⟨⟨by decide, by decide, by norm_num [ULONG_MOD, statistics_initializer],
      by norm_num [ULONG_MOD, statistics_initializer],
      by norm_num [ULONG_MOD, statistics_initializer],
      by norm_num [ULONG_MOD, statistics_initializer],
      by norm_num [ULONG_MOD, statistics_initializer],
      by norm_num [ULONG_MOD, statistics_initializer],
      by norm_num [ULONG_MOD, statistics_initializer],
      by norm_num [ULONG_MOD, statistics_initializer]⟩,
    stats_roll_reset_monotone statistics_initializer statistics_initializer
      statistics_initializer 100 ⟨false, false, none, 0, true, false⟩
      ⟨false, false, none, 0, true, false⟩ (build_errno_ignore true)
      (build_errno_ignore true) ⟨5, 6⟩ ⟨5, 6⟩ ⟨0, 0⟩ ⟨0, 0⟩
      (RecvResult.err EINTR) (RecvResult.err EINTR) (SendResult.ok 1)
      (SendResult.ok 1) (by decide) (by decide)
      (by norm_num [ULONG_MOD, statistics_initializer])
      (by norm_num [ULONG_MOD, statistics_initializer])
      (by norm_num [ULONG_MOD, statistics_initializer])
      (by norm_num [ULONG_MOD, statistics_initializer])
      (by norm_num [ULONG_MOD, statistics_initializer])
      (by norm_num [ULONG_MOD, statistics_initializer])
      (by norm_num [ULONG_MOD, statistics_initializer])
      (by norm_num [ULONG_MOD, statistics_initializer])⟩

/-- C8: on a forward attempt whose `sendto` fails, an errno in the ignore
set leaves the loop running and the send counters untouched (the datagram is
not counted as sent), while an errno outside the ignore set is fatal — in
both relay directions. -/
theorem send_error_policy (s : Settings) (caddr prev prevS : Endpoint)
    (st stS : Stats) (E ES : Endpoint) (pl plS : List Nat) (e : Nat)
    (haccL : listenAccept s prev E = true)
    (haccS : sendAccept s caddr prevS ES = true)
    (hpl : pl ≠ []) (hplS : plS ≠ []) :
    (errno_ignore_check (build_errno_ignore s.eignore) e = true →
      (∃ st1, listenEvent s (build_errno_ignore s.eignore) caddr prev st
          (RecvResult.data E pl) (SendResult.err e) =
            Outcome.cont (listenUpdate s prev E) st1 (some (caddr, pl)) ∧
        st1.count_connect_packet_send = st.count_connect_packet_send ∧
        st1.count_connect_byte_send = st.count_connect_byte_send) ∧
      (∃ st1, sendEvent s (build_errno_ignore s.eignore) caddr prevS stS
          (RecvResult.data ES plS) (SendResult.err e) =
            Outcome.cont prevS st1 (some (prevS, plS)) ∧
        st1.count_listen_packet_send = stS.count_listen_packet_send ∧
        st1.count_listen_byte_send = stS.count_listen_byte_send)) ∧
    (errno_ignore_check (build_errno_ignore s.eignore) e = false →
      listenEvent s (build_errno_ignore s.eignore) caddr prev st
          (RecvResult.data E pl) (SendResult.err e) = Outcome.fatal e ∧
      sendEvent s (build_errno_ignore s.eignore) caddr prevS stS
          (RecvResult.data ES plS) (SendResult.err e) = Outcome.fatal e) := by
  have hlenL : ¬ pl.length = 0 := by simpa using hpl
  have hlenS : ¬ plS.length = 0 := by simpa using hplS
  constructor
  · intro hign
    constructor
    · refine ⟨{ st with
        count_listen_packet_receive :=
          (st.count_listen_packet_receive + 1) % ULONG_MOD
        count_listen_byte_receive :=
          (st.count_listen_byte_receive + pl.length) % ULONG_MOD }, ?_, rfl, rfl⟩
      simp [listenEvent, hlenL, haccL, hign]
    · refine ⟨{ stS with
        count_connect_packet_receive :=
          (stS.count_connect_packet_receive + 1) % ULONG_MOD
        count_connect_byte_receive :=
          (stS.count_connect_byte_receive + plS.length) % ULONG_MOD }, ?_, rfl, rfl⟩
      simp [sendEvent, hlenS, haccS, hign]
  · intro hign
    constructor
    · simp [listenEvent, hlenL, haccL, hign]
    · simp [sendEvent, hlenS, haccS, hign]

theorem send_error_policy_witness :
    (listenAccept ⟨false, false, none, 0, true, false⟩ ⟨0, 0⟩ ⟨7, 9⟩ = true ∧
      sendAccept ⟨false, false, none, 0, true, false⟩ ⟨5, 6⟩ ⟨7, 9⟩ ⟨5, 6⟩ = true ∧
      ([3] : List Nat) ≠ [] ∧ ([4] : List Nat) ≠ []) ∧
    ((errno_ignore_check (build_errno_ignore
        (⟨false, false, none, 0, true, false⟩ : Settings).eignore)
        EHOSTUNREACH = true →
      (∃ st1, listenEvent ⟨false, false, none, 0, true, false⟩
          (build_errno_ignore
            (⟨false, false, none, 0, true, false⟩ : Settings).eignore)
          ⟨5, 6⟩ ⟨0, 0⟩ statistics_initializer (RecvResult.data ⟨7, 9⟩ [3])
          (SendResult.err EHOSTUNREACH) =
            Outcome.cont (listenUpdate ⟨false, false, none, 0, true, false⟩
              ⟨0, 0⟩ ⟨7, 9⟩) st1 (some (⟨5, 6⟩, [3])) ∧
        st1.count_connect_packet_send =
          statistics_initializer.count_connect_packet_send ∧
        st1.count_connect_byte_send =
          statistics_initializer.count_connect_byte_send) ∧
      (∃ st1, sendEvent ⟨false, false, none, 0, true, false⟩
          (build_errno_ignore
            (⟨false, false, none, 0, true, false⟩ : Settings).eignore)
          ⟨5, 6⟩ ⟨7, 9⟩ statistics_initializer (RecvResult.data ⟨5, 6⟩ [4])
          (SendResult.err EHOSTUNREACH) =
            Outcome.cont ⟨7, 9⟩ st1 (some (⟨7, 9⟩, [4])) ∧
        st1.count_listen_packet_send =
          statistics_initializer.count_listen_packet_send ∧
        st1.count_listen_byte_send =
          statistics_initializer.count_listen_byte_send)) ∧
    (errno_ignore_check (build_errno_ignore
        (⟨false, false, none, 0, true, false⟩ : Settings).eignore)
        EHOSTUNREACH = false →
      listenEvent ⟨false, false, none, 0, true, false⟩
          (build_errno_ignore
            (⟨false, false, none, 0, true, false⟩ : Settings).eignore)
          ⟨5, 6⟩ ⟨0, 0⟩ statistics_initializer (RecvResult.data ⟨7, 9⟩ [3])
          (SendResult.err EHOSTUNREACH) = Outcome.fatal EHOSTUNREACH ∧
      sendEvent ⟨false, false, none, 0, true, false⟩
          (build_errno_ignore
            (⟨false, false, none, 0, true, false⟩ : Settings).eignore)
          ⟨5, 6⟩ ⟨7, 9⟩ statistics_initializer (RecvResult.data ⟨5, 6⟩ [4])
          (SendResult.err EHOSTUNREACH) = Outcome.fatal EHOSTUNREACH)) :=
  ⟨⟨by decide, by decide, by decide, by decide⟩,
    send_error_policy ⟨false, false, none, 0, true, false⟩ ⟨5, 6⟩ ⟨0, 0⟩ ⟨7, 9⟩
      statistics_initializer statistics_initializer ⟨7, 9⟩ ⟨5, 6⟩ [3] [4]
      EHOSTUNREACH (by decide) (by decide) (by decide) (by decide)⟩
